import Mathlib

/-!
# Safety-Watchdog: heartbeat expiry predicate, watchdog loop and producer loop

Shallow embedding of
* `src/watchdog_logic.cpp` (`is_heartbeat_expired`),
* `src/estop.cpp` (`emergency_stop`),
* `src/watchdog.cpp` (`watchdog_thread`),
* `src/control.cpp` (`control_thread`),
* `src/main.cpp` (`main`, `now_ns`, `last_heartbeat_ns`).

`uint64_t` values are natural numbers below `U64_MOD = 2^64`; unsigned
subtraction and addition are taken modulo `U64_MOD`.
-/

namespace SafetyWatchdog

/-! ## Machine arithmetic -/

/-- Number of values of a `uint64_t`, that is `2^64`. -/
def U64_MOD : Nat := 18446744073709551616

/-- Subtraction of two `uint64_t` values as C++ computes it: modulo `2^64`. -/
def sub_u64 (a b : Nat) : Nat := (a + (U64_MOD - b % U64_MOD)) % U64_MOD

/-- Addition of two `uint64_t` values as C++ computes it: modulo `2^64`. -/
def add_u64 (a b : Nat) : Nat := (a + b) % U64_MOD

/-! ## `src/watchdog_logic.cpp` -/

/-- The function `is_heartbeat_expired` of `watchdog_logic.cpp`:
`return (now_ns - last_heartbeat_ns) > timeout_ns;` on `uint64_t`. -/
def is_heartbeat_expired (last_heartbeat_ns now_ns timeout_ns : Nat) : Bool :=
  decide (sub_u64 now_ns last_heartbeat_ns > timeout_ns)

/-- The constant `TIMEOUT_NS = 500'000'000` of `watchdog_thread`. -/
def TIMEOUT_NS : Nat := 500000000

/-! ## `src/estop.cpp` and the thread-local view of `src/watchdog.cpp` -/

/-- Observable actions of the watchdog thread, in program order. -/
inductive Effect where
  /-- The call `last_heartbeat_ns.load(std::memory_order_acquire)` returning `v`. -/
  | load_heartbeat (v : Nat)
  /-- The call `now_ns()` returning `v`. -/
  | read_clock (v : Nat)
  /-- Text written to `std::cerr`. -/
  | cerr (text : String)
  /-- The call `std::abort()`. -/
  | abort
  /-- The call `std::this_thread::sleep_for(std::chrono::milliseconds(ms))`. -/
  | sleep_for_ms (ms : Nat)
  deriving DecidableEq, Repr

/-- The two logical states of the watchdog: the loop is running, or
`emergency_stop` has aborted the process. -/
inductive WdState where
  | Monitoring
  | Stopped
  deriving DecidableEq, Repr

/-- The function `emergency_stop` of `estop.cpp`:
`std::cerr << "[E-STOP] " << reason << std::endl; std::abort();`. -/
def emergency_stop (reason : String) : List Effect :=
  [Effect.cerr ("[E-STOP] " ++ reason ++ "\n"), Effect.abort]

/-- One pass through the body of the `while (true)` loop of `watchdog_thread`,
given the value `last` returned by the load and the value `now` returned by
`now_ns()`. Returns the state after the pass and the effects performed. -/
def watchdog_iteration (last now : Nat) : WdState × List Effect :=
  if is_heartbeat_expired last now TIMEOUT_NS then
    (WdState.Stopped,
      [Effect.load_heartbeat last, Effect.read_clock now]
        ++ emergency_stop "Heartbeat timeout > 500ms")
  else
    (WdState.Monitoring,
      [Effect.load_heartbeat last, Effect.read_clock now, Effect.sleep_for_ms 10])

/-- The function `watchdog_thread` of `watchdog.cpp`, run against the sequence
of `(last, now)` pairs its successive iterations read. The loop itself never
exits; the run ends when `emergency_stop` aborts (state `Stopped`) or when the
supplied readings are used up (state `Monitoring`: the loop is still running). -/
def watchdog_thread : List (Nat × Nat) → WdState × List Effect
  | [] => (WdState.Monitoring, [])
  | (last, now) :: rest =>
    match watchdog_iteration last now with
    | (WdState.Stopped, es) => (WdState.Stopped, es)
    | (WdState.Monitoring, es) =>
      ((watchdog_thread rest).1, es ++ (watchdog_thread rest).2)

/-- Effects of a run of iterations none of which calls `emergency_stop`: each
one loads, reads the clock and sleeps 10 ms. -/
def quiet_trace : List (Nat × Nat) → List Effect
  | [] => []
  | (last, now) :: rest =>
    [Effect.load_heartbeat last, Effect.read_clock now, Effect.sleep_for_ms 10]
      ++ quiet_trace rest

/-- Clock value at which `watchdog_thread` calls `emergency_stop`, when the
heartbeat store holds `T` at every load and the successive calls of `now_ns()`
return `nows`; `none` when no iteration over `nows` calls it. -/
def stop_time (T : Nat) : List Nat → Option Nat
  | [] => none
  | now :: rest =>
    match watchdog_iteration T now with
    | (WdState.Stopped, _) => some now
    | (WdState.Monitoring, _) => stop_time T rest

/-! ## The whole process: `main`, `control_thread`, `watchdog_thread` interleaved -/

/-- Program counter of `main`. -/
inductive MainPc where
  /-- Before line 19. -/
  | start
  /-- Line 19, `now_ns()` has returned `v`, the store is not yet done. -/
  | have_now (v : Nat)
  /-- Both threads are created, `main` waits in `join`. -/
  | joining
  deriving DecidableEq, Repr

/-- Program counter of `control_thread`. -/
inductive CtrlPc where
  /-- At the test `if (simulate_hang)`. -/
  | entry
  /-- Inside `while (true) {}`. -/
  | hang
  /-- At the top of the second loop, before `now_ns()`. -/
  | loop_top
  /-- Line 11, `now_ns()` has returned `v`, the store is not yet done. -/
  | have_now (v : Nat)
  /-- Inside `sleep_for(100 ms)`. -/
  | sleeping
  deriving DecidableEq, Repr

/-- Program counter of `watchdog_thread`. -/
inductive WdPc where
  /-- At the top of the loop, before the load. -/
  | loop_top
  /-- The load has returned `last`, `now_ns()` is not yet called. -/
  | have_last (last : Nat)
  /-- Inside `sleep_for(10 ms)`. -/
  | sleeping
  deriving DecidableEq, Repr

/-- One evaluation of the expiry predicate by the watchdog. -/
structure Check where
  last : Nat
  now : Nat
  result : Bool
  deriving DecidableEq, Repr

/-- State of the process together with the steady clock. -/
structure Sys where
  /-- Nanoseconds of `steady_clock` since its epoch. -/
  clock : Nat
  /-- The global `std::atomic<uint64_t> last_heartbeat_ns`. -/
  last_heartbeat_ns : Nat
  /-- The local `simulate_hang` of `main`, passed to `control_thread`. -/
  simulate_hang : Bool
  main : MainPc
  ctrl : CtrlPc
  wd : WdPc
  /-- Whether `emergency_stop` has aborted the process. -/
  status : WdState
  /-- Effects of `emergency_stop` performed so far. -/
  out : List Effect
  /-- History of the evaluations of `is_heartbeat_expired`, oldest first. -/
  checks : List Check
  deriving DecidableEq, Repr

/-- What can happen next: time passes, or one of the three threads performs
its next atomic step. -/
inductive Action where
  | tick (d : Nat)
  | main_step
  | ctrl_step
  | wd_step
  deriving DecidableEq, Repr

/-- The function `now_ns` of `main.cpp`: the steady clock as a `uint64_t`. -/
def now_ns (s : Sys) : Nat := s.clock % U64_MOD

/-- State at process start: the global atomic is zero, `main` is at its first
statement, no thread exists yet. -/
def boot (simulate_hang : Bool) (clock : Nat) : Sys :=
  { clock := clock, last_heartbeat_ns := 0, simulate_hang := simulate_hang,
    main := MainPc.start, ctrl := CtrlPc.entry, wd := WdPc.loop_top,
    status := WdState.Monitoring, out := [], checks := [] }

/-- Next step of `main`: line 19 is `last_heartbeat_ns.store(now_ns())`, after
which the two threads are created and `main` blocks in `join`. -/
def main_step (s : Sys) : Sys :=
  match s.main with
  | MainPc.start => { s with main := MainPc.have_now (now_ns s) }
  | MainPc.have_now v => { s with last_heartbeat_ns := v, main := MainPc.joining }
  | MainPc.joining => s

/-- Next step of `control_thread`; the thread exists once `main` has created it. -/
def ctrl_step (s : Sys) : Sys :=
  match s.main with
  | MainPc.joining =>
    match s.ctrl with
    | CtrlPc.entry =>
      if s.simulate_hang then { s with ctrl := CtrlPc.hang }
      else { s with ctrl := CtrlPc.loop_top }
    | CtrlPc.hang => s
    | CtrlPc.loop_top => { s with ctrl := CtrlPc.have_now (now_ns s) }
    | CtrlPc.have_now v => { s with last_heartbeat_ns := v, ctrl := CtrlPc.sleeping }
    | CtrlPc.sleeping => { s with ctrl := CtrlPc.loop_top }
  | _ => s

/-- Next step of `watchdog_thread`; the thread exists once `main` has created it. -/
def wd_step (s : Sys) : Sys :=
  match s.main with
  | MainPc.joining =>
    match s.wd with
    | WdPc.loop_top => { s with wd := WdPc.have_last s.last_heartbeat_ns }
    | WdPc.have_last last =>
      let now := now_ns s
      let b := is_heartbeat_expired last now TIMEOUT_NS
      let s1 := { s with checks := s.checks ++ [Check.mk last now b] }
      if b then
        { s1 with status := WdState.Stopped,
                  out := s.out ++ emergency_stop "Heartbeat timeout > 500ms" }
      else { s1 with wd := WdPc.sleeping }
    | WdPc.sleeping => { s with wd := WdPc.loop_top }
  | _ => s

/-- One step of the system. After `std::abort()` the process is gone and
nothing changes any more. -/
def step (s : Sys) (a : Action) : Sys :=
  match s.status with
  | WdState.Stopped => s
  | WdState.Monitoring =>
    match a with
    | Action.tick d => { s with clock := s.clock + d }
    | Action.main_step => main_step s
    | Action.ctrl_step => ctrl_step s
    | Action.wd_step => wd_step s

/-- Run a schedule of actions from a state. -/
def run (s : Sys) (acts : List Action) : Sys := acts.foldl step s

/-- What holds of every state of a run: every timestamp held by the process
(the store, a value a thread has read from the clock and not yet used, the value
the watchdog has loaded) is at most the clock; every logged check carries the
value of the predicate; and, as long as the clock has not left the 64-bit range,
every logged check has `last ≤ now` and is the exact comparison. -/
def Inv (s : Sys) : Prop :=
  s.last_heartbeat_ns ≤ s.clock ∧
  (∀ v, s.main = MainPc.have_now v → v ≤ s.clock) ∧
  (∀ v, s.ctrl = CtrlPc.have_now v → v ≤ s.clock) ∧
  (∀ l, s.wd = WdPc.have_last l → l ≤ s.clock) ∧
  (∀ c ∈ s.checks, c.result = is_heartbeat_expired c.last c.now TIMEOUT_NS) ∧
  (s.clock < U64_MOD → ∀ c ∈ s.checks, c.last ≤ c.now ∧ c.now < U64_MOD)

/-! ## Concrete runs -/

/-- The two steps of `main` that perform line 19. -/
def startup : List Action := [Action.main_step, Action.main_step]

/-- Scenario C just before detection: `main` has stored the heartbeat
`1_000_000`, the producer is at the top of its loop, the watchdog has loaded
the heartbeat, and 520 ms have passed. -/
def scenario_c_before : Sys :=
  run (boot false 1000000)
    (startup ++ [Action.ctrl_step, Action.wd_step, Action.tick 520000000])

/-- Scenario C after the watchdog has evaluated the predicate. -/
def scenario_c_stopped : Sys := step scenario_c_before Action.wd_step

/-- Scenario C, later attempts: 180 ms pass, the producer tries to read the
clock and store, the watchdog tries to poll. -/
def scenario_c_later : List Action :=
  [Action.tick 180000000, Action.ctrl_step, Action.ctrl_step, Action.wd_step]

/-- A run with a live producer: a first poll 100 ms after start, then 600 ms
without a store and a second poll. -/
def sample_schedule : List Action :=
  startup ++ [Action.ctrl_step, Action.ctrl_step, Action.wd_step,
    Action.tick 100000000, Action.ctrl_step, Action.wd_step, Action.wd_step,
    Action.wd_step, Action.tick 600000000, Action.wd_step]

/-- A schedule for the hung producer after start: the producer is scheduled,
time passes, the watchdog polls. -/
def hang_schedule : List Action :=
  [Action.ctrl_step, Action.tick 100000000, Action.ctrl_step, Action.wd_step,
    Action.wd_step, Action.ctrl_step]

/-- A live producer at the top of its loop, 100 ms after start. -/
def producer_at_loop_top : Sys :=
  run (boot false 1000000) (startup ++ [Action.ctrl_step, Action.tick 100000000])

/-- A live producer that has read the clock and not yet stored. -/
def producer_before_store : Sys :=
  run producer_at_loop_top [Action.ctrl_step, Action.tick 5]

end SafetyWatchdog

namespace SafetyWatchdog

/-! ## Facts about the machine arithmetic -/

/-- Without wrap-around the machine subtraction is the exact difference. -/
theorem sub_u64_of_le {a b : Nat} (hab : b ≤ a) (ha : a < U64_MOD) :
    sub_u64 a b = a - b := by
  unfold sub_u64 U64_MOD at *
  omega

/-- When the subtrahend is the larger one the machine subtraction wraps. -/
theorem sub_u64_of_lt {a b : Nat} (hab : a < b) (hb : b < U64_MOD) :
    sub_u64 a b = U64_MOD - (b - a) := by
  unfold sub_u64 U64_MOD at *
  omega

/-- The predicate is the comparison of the machine difference with the timeout. -/
theorem is_heartbeat_expired_iff (last now timeout : Nat) :
    is_heartbeat_expired last now timeout = true ↔ timeout < sub_u64 now last := by
  simp [is_heartbeat_expired]

/-- Without wrap-around the predicate is true exactly above the timeout. -/
theorem expired_iff_of_le {last now : Nat} (timeout : Nat)
    (hle : last ≤ now) (hnow : now < U64_MOD) :
    is_heartbeat_expired last now timeout = true ↔ timeout < now - last := by
  rw [is_heartbeat_expired_iff, sub_u64_of_le hle hnow]

/-- Without wrap-around the predicate is false exactly up to the timeout. -/
theorem not_expired_iff_of_le {last now : Nat} (timeout : Nat)
    (hle : last ≤ now) (hnow : now < U64_MOD) :
    is_heartbeat_expired last now timeout = false ↔ now - last ≤ timeout := by
  rw [← Bool.not_eq_true, expired_iff_of_le timeout hle hnow]
  omega

/-! ## The expiry predicate -/

/-- C1: for `uint64_t` values `last ≤ now` and any timeout,
`is_heartbeat_expired` is true exactly when the exact elapsed time `now - last`
is strictly greater than the timeout, and false exactly when it is at most the
timeout. -/
theorem is_heartbeat_expired_exact (last now timeout : Nat)
    (hle : last ≤ now) (hnow : now < U64_MOD) :
    (is_heartbeat_expired last now timeout = true ↔ now - last > timeout) ∧
    (is_heartbeat_expired last now timeout = false ↔ now - last ≤ timeout) :=
  ⟨expired_iff_of_le timeout hle hnow, not_expired_iff_of_le timeout hle hnow⟩

/-- Instance of C1 taken from `watchdog_logic_test.cpp`. -/
theorem is_heartbeat_expired_exact_witness :
    (1000000 : Nat) ≤ 501000000 ∧ (501000000 : Nat) < U64_MOD ∧
    ((is_heartbeat_expired 1000000 501000000 500000000 = true
        ↔ 501000000 - 1000000 > 500000000) ∧
     (is_heartbeat_expired 1000000 501000000 500000000 = false
        ↔ 501000000 - 1000000 ≤ 500000000)) :=
  ⟨by decide, by decide,
    is_heartbeat_expired_exact 1000000 501000000 500000000 (by decide) (by decide)⟩

/-- C2: boundary policy. Whenever `last + timeout + 1` is still a `uint64_t`,
an elapsed time equal to the timeout is not expired and one nanosecond more is
expired. -/
theorem is_heartbeat_expired_boundary (last timeout : Nat)
    (hrange : last + timeout + 1 < U64_MOD) :
    is_heartbeat_expired last (last + timeout) timeout = false ∧
    is_heartbeat_expired last (last + timeout + 1) timeout = true := by
  constructor
  · rw [← Bool.not_eq_true, is_heartbeat_expired_iff,
      sub_u64_of_le (by omega) (by omega)]
    omega
  · rw [is_heartbeat_expired_iff, sub_u64_of_le (by omega) (by omega)]
    omega

/-- The boundary literals of `test_boundary_conditions`:
`last = 1_000_000`, `timeout = 500_000_000`. -/
theorem is_heartbeat_expired_boundary_witness :
    (1000000 : Nat) + 500000000 + 1 < U64_MOD ∧
    is_heartbeat_expired 1000000 (1000000 + 500000000) 500000000 = false ∧
    is_heartbeat_expired 1000000 (1000000 + 500000000 + 1) 500000000 = true :=
  ⟨by decide, is_heartbeat_expired_boundary 1000000 500000000 (by decide)⟩

/-- C3 as stated fails. With the heartbeat ahead of the clock
(`last = 10`, `now = 5`, `timeout = 100`) the predicate is true at `now` and
false at `now + 5`, although `now + 5` does not leave the 64-bit range. With
`last ≤ now` it also fails once `now + k` wraps (`last = 5`, `now = 2^64 - 1`,
`k = 6`). -/
theorem is_heartbeat_expired_not_monotone :
    (is_heartbeat_expired 10 5 100 = true ∧
      5 + 5 < U64_MOD ∧
      is_heartbeat_expired 10 (add_u64 5 5) 100 = false) ∧
    (is_heartbeat_expired 5 18446744073709551615 100 = true ∧
      is_heartbeat_expired 5 (add_u64 18446744073709551615 6) 100 = false) := by
  decide

/-- C3 amended: monotonicity in `now` for `last ≤ now` as long as `now + k` is
still a `uint64_t`. -/
theorem is_heartbeat_expired_monotone (last now timeout k : Nat)
    (hle : last ≤ now) (hrange : now + k < U64_MOD)
    (hexp : is_heartbeat_expired last now timeout = true) :
    is_heartbeat_expired last (add_u64 now k) timeout = true := by
  have hadd : add_u64 now k = now + k := by
    unfold add_u64
    exact Nat.mod_eq_of_lt hrange
  rw [is_heartbeat_expired_iff, sub_u64_of_le hle (by omega)] at hexp
  rw [hadd, is_heartbeat_expired_iff, sub_u64_of_le (by omega) hrange]
  omega

/-- The readings of `test_no_recovery_after_estop`: expired at `last + 600 ms`,
still expired 100 ms later. -/
theorem is_heartbeat_expired_monotone_witness :
    (1000000 : Nat) ≤ 601000000 ∧ 601000000 + 100000000 < U64_MOD ∧
    is_heartbeat_expired 1000000 601000000 500000000 = true ∧
    is_heartbeat_expired 1000000 (add_u64 601000000 100000000) 500000000 = true :=
  ⟨by decide, by decide, by decide,
    is_heartbeat_expired_monotone 1000000 601000000 500000000 100000000
      (by decide) (by decide) (by decide)⟩

/-- C9: when the heartbeat is ahead of the clock (`now < last`) the subtraction
wraps: the predicate is `2^64 - (last - now) > timeout`. In particular a
heartbeat one nanosecond ahead of the clock is expired for every timeout below
`2^64 - 1`. -/
theorem is_heartbeat_expired_wraps (last now timeout : Nat)
    (hlt : now < last) (hlast : last < U64_MOD) (htimeout : timeout < U64_MOD) :
    is_heartbeat_expired last now timeout
      = decide (U64_MOD - (last - now) > timeout) ∧
    (last = now + 1 → timeout < U64_MOD - 1 →
      is_heartbeat_expired last now timeout = true) := by
  have hsub := sub_u64_of_lt hlt hlast
  constructor
  · simp [is_heartbeat_expired, hsub]
  · intro h1 ht
    rw [is_heartbeat_expired_iff, hsub]
    omega

/-- A heartbeat one nanosecond newer than the clock reading, with the 500 ms
timeout of the watchdog: reported as expired. -/
theorem is_heartbeat_expired_wraps_witness :
    (1000000 : Nat) < 1000001 ∧ (1000001 : Nat) < U64_MOD ∧
    (500000000 : Nat) < U64_MOD ∧
    (is_heartbeat_expired 1000001 1000000 500000000
        = decide (U64_MOD - (1000001 - 1000000) > 500000000) ∧
      ((1000001 : Nat) = 1000000 + 1 → 500000000 < U64_MOD - 1 →
        is_heartbeat_expired 1000001 1000000 500000000 = true)) :=
  ⟨by decide, by decide, by decide,
    is_heartbeat_expired_wraps 1000001 1000000 500000000
      (by decide) (by decide) (by decide)⟩

/-! ## The watchdog loop, thread-local view -/

/-- An iteration whose predicate is false only loads, reads the clock and sleeps. -/
theorem watchdog_iteration_of_not_expired {last now : Nat}
    (h : is_heartbeat_expired last now TIMEOUT_NS = false) :
    watchdog_iteration last now = (WdState.Monitoring,
      [Effect.load_heartbeat last, Effect.read_clock now, Effect.sleep_for_ms 10]) := by
  simp [watchdog_iteration, h]

/-- An iteration whose predicate is true calls `emergency_stop` right after the
two reads. -/
theorem watchdog_iteration_of_expired {last now : Nat}
    (h : is_heartbeat_expired last now TIMEOUT_NS = true) :
    watchdog_iteration last now = (WdState.Stopped,
      [Effect.load_heartbeat last, Effect.read_clock now,
        Effect.cerr "[E-STOP] Heartbeat timeout > 500ms\n", Effect.abort]) := by
  simp only [watchdog_iteration, h, if_true, emergency_stop]
  rfl

/-- The loop passes over an iteration whose predicate is false. -/
theorem watchdog_thread_cons_of_not_expired {last now : Nat} (rest : List (Nat × Nat))
    (h : is_heartbeat_expired last now TIMEOUT_NS = false) :
    watchdog_thread ((last, now) :: rest) = ((watchdog_thread rest).1,
      [Effect.load_heartbeat last, Effect.read_clock now, Effect.sleep_for_ms 10]
        ++ (watchdog_thread rest).2) := by
  simp [watchdog_thread, watchdog_iteration_of_not_expired h]

/-- The loop ends at an iteration whose predicate is true. -/
theorem watchdog_thread_cons_of_expired {last now : Nat} (rest : List (Nat × Nat))
    (h : is_heartbeat_expired last now TIMEOUT_NS = true) :
    watchdog_thread ((last, now) :: rest) = (WdState.Stopped,
      [Effect.load_heartbeat last, Effect.read_clock now,
        Effect.cerr "[E-STOP] Heartbeat timeout > 500ms\n", Effect.abort]) := by
  simp [watchdog_thread, watchdog_iteration_of_expired h]

/-- Neither effect of `emergency_stop` occurs in a quiet trace. -/
theorem quiet_trace_no_stop (readings : List (Nat × Nat)) :
    Effect.abort ∉ quiet_trace readings ∧
    ∀ text, Effect.cerr text ∉ quiet_trace readings := by
  induction readings with
  | nil => simp [quiet_trace]
  | cons r rest ih =>
    obtain ⟨last, now⟩ := r
    simp [quiet_trace, ih.1, ih.2]

/-- C4: an iteration of `watchdog_thread` that reads `last` and `now` with
`is_heartbeat_expired last now 500_000_000` true performs, after the two reads,
exactly the write of the line `[E-STOP] Heartbeat timeout > 500ms` to `std::cerr`
followed by `std::abort()`, with no sleep in between; and the loop, whatever
quiet iterations came before, ends there: the readings that would follow are
never consumed. -/
theorem watchdog_thread_stops_on_expiry (pre rest : List (Nat × Nat)) (last now : Nat)
    (hpre : ∀ r ∈ pre, is_heartbeat_expired r.1 r.2 TIMEOUT_NS = false)
    (hexp : is_heartbeat_expired last now 500000000 = true) :
    emergency_stop "Heartbeat timeout > 500ms"
      = [Effect.cerr "[E-STOP] Heartbeat timeout > 500ms\n", Effect.abort] ∧
    watchdog_iteration last now = (WdState.Stopped,
      [Effect.load_heartbeat last, Effect.read_clock now]
        ++ emergency_stop "Heartbeat timeout > 500ms") ∧
    watchdog_thread (pre ++ (last, now) :: rest) = (WdState.Stopped,
      quiet_trace pre ++
        [Effect.load_heartbeat last, Effect.read_clock now,
          Effect.cerr "[E-STOP] Heartbeat timeout > 500ms\n", Effect.abort]) := by
  have hexp' : is_heartbeat_expired last now TIMEOUT_NS = true := hexp
  refine ⟨rfl, ?_, ?_⟩
  · simp [watchdog_iteration, hexp']
  · induction pre with
    | nil => simpa [quiet_trace] using watchdog_thread_cons_of_expired rest hexp'
    | cons r pre ih =>
      obtain ⟨l, n⟩ := r
      have hr : is_heartbeat_expired l n TIMEOUT_NS = false :=
        hpre (l, n) (List.mem_cons_self _ _)
      have ih' := ih (fun q hq => hpre q (List.mem_cons_of_mem _ hq))
      rw [List.cons_append, watchdog_thread_cons_of_not_expired _ hr, ih']
      simp [quiet_trace]

/-- The readings of `test_flaky_heartbeat`: a good iteration at `last + 100 ms`,
then expiry at `last + 520 ms`; a third pair of readings is never used. -/
theorem watchdog_thread_stops_on_expiry_witness :
    (∀ r ∈ [((1000000 : Nat), (101000000 : Nat))],
      is_heartbeat_expired r.1 r.2 TIMEOUT_NS = false) ∧
    is_heartbeat_expired 1000000 521000000 500000000 = true ∧
    (emergency_stop "Heartbeat timeout > 500ms"
      = [Effect.cerr "[E-STOP] Heartbeat timeout > 500ms\n", Effect.abort] ∧
    watchdog_iteration 1000000 521000000 = (WdState.Stopped,
      [Effect.load_heartbeat 1000000, Effect.read_clock 521000000]
        ++ emergency_stop "Heartbeat timeout > 500ms") ∧
    watchdog_thread ([(1000000, 101000000)] ++ (1000000, 521000000) :: [(701000000, 701000000)])
      = (WdState.Stopped,
      quiet_trace [(1000000, 101000000)] ++
        [Effect.load_heartbeat 1000000, Effect.read_clock 521000000,
          Effect.cerr "[E-STOP] Heartbeat timeout > 500ms\n", Effect.abort])) :=
  ⟨by decide, by decide,
    watchdog_thread_stops_on_expiry [(1000000, 101000000)] [(701000000, 701000000)]
      1000000 521000000 (by decide) (by decide)⟩

/-- C6: steady state never stops. If every iteration of `watchdog_thread` reads
`last ≤ now` with `now - last ≤ 500_000_000`, then every iteration only loads,
reads the clock and sleeps 10 ms, the loop is still in `Monitoring` after all
of them, and neither the write to `std::cerr` nor `std::abort()` of
`emergency_stop` occurs. -/
theorem watchdog_thread_steady_state (readings : List (Nat × Nat))
    (hfresh : ∀ r ∈ readings, r.1 ≤ r.2 ∧ r.2 < U64_MOD ∧ r.2 - r.1 ≤ 500000000) :
    (∀ r ∈ readings, watchdog_iteration r.1 r.2 = (WdState.Monitoring,
      [Effect.load_heartbeat r.1, Effect.read_clock r.2, Effect.sleep_for_ms 10])) ∧
    (watchdog_thread readings).1 = WdState.Monitoring ∧
    Effect.abort ∉ (watchdog_thread readings).2 ∧
    (∀ text, Effect.cerr text ∉ (watchdog_thread readings).2) := by
  have hquiet : ∀ r ∈ readings, is_heartbeat_expired r.1 r.2 TIMEOUT_NS = false := by
    intro r hr
    obtain ⟨h1, h2, h3⟩ := hfresh r hr
    exact (not_expired_iff_of_le TIMEOUT_NS h1 h2).2 h3
  have hrun : watchdog_thread readings = (WdState.Monitoring, quiet_trace readings) := by
    clear hfresh
    induction readings with
    | nil => rfl
    | cons r rest ih =>
      obtain ⟨l, n⟩ := r
      have hr : is_heartbeat_expired l n TIMEOUT_NS = false :=
        hquiet (l, n) (List.mem_cons_self _ _)
      rw [watchdog_thread_cons_of_not_expired _ hr,
        ih (fun q hq => hquiet q (List.mem_cons_of_mem _ hq))]
      rfl
  refine ⟨fun r hr => watchdog_iteration_of_not_expired (hquiet r hr), ?_, ?_, ?_⟩
  · rw [hrun]
  · rw [hrun]; exact (quiet_trace_no_stop readings).1
  · rw [hrun]; exact (quiet_trace_no_stop readings).2

/-- A heartbeat stored at `1_000_000` and refreshed at `101_000_000`, polled
at ages 0 ms, 50 ms, 100 ms, 0 ms and, at the boundary, 500 ms. -/
theorem watchdog_thread_steady_state_witness :
    (∀ r ∈ [((1000000 : Nat), (1000000 : Nat)), (1000000, 51000000),
        (1000000, 101000000), (101000000, 101000000), (101000000, 601000000)],
      r.1 ≤ r.2 ∧ r.2 < U64_MOD ∧ r.2 - r.1 ≤ 500000000) ∧
    ((∀ r ∈ [((1000000 : Nat), (1000000 : Nat)), (1000000, 51000000),
        (1000000, 101000000), (101000000, 101000000), (101000000, 601000000)],
      watchdog_iteration r.1 r.2 = (WdState.Monitoring,
        [Effect.load_heartbeat r.1, Effect.read_clock r.2, Effect.sleep_for_ms 10])) ∧
    (watchdog_thread [(1000000, 1000000), (1000000, 51000000),
        (1000000, 101000000), (101000000, 101000000), (101000000, 601000000)]).1
      = WdState.Monitoring ∧
    Effect.abort ∉ (watchdog_thread [(1000000, 1000000), (1000000, 51000000),
        (1000000, 101000000), (101000000, 101000000), (101000000, 601000000)]).2 ∧
    (∀ text, Effect.cerr text ∉ (watchdog_thread [(1000000, 1000000), (1000000, 51000000),
        (1000000, 101000000), (101000000, 101000000), (101000000, 601000000)]).2)) :=
  ⟨by decide,
    watchdog_thread_steady_state [(1000000, 1000000), (1000000, 51000000),
        (1000000, 101000000), (101000000, 101000000), (101000000, 601000000)] (by decide)⟩

/-! ## Detection latency -/

/-- With a frozen heartbeat, an iteration whose predicate is false is skipped. -/
theorem stop_time_cons_of_not_expired {T now : Nat} (rest : List Nat)
    (h : is_heartbeat_expired T now TIMEOUT_NS = false) :
    stop_time T (now :: rest) = stop_time T rest := by
  simp [stop_time, watchdog_iteration_of_not_expired h]

/-- With a frozen heartbeat, the first iteration whose predicate is true stops. -/
theorem stop_time_cons_of_expired {T now : Nat} (rest : List Nat)
    (h : is_heartbeat_expired T now TIMEOUT_NS = true) :
    stop_time T (now :: rest) = some now := by
  simp [stop_time, watchdog_iteration_of_expired h]

/-- C7 as stated fails. The heartbeat is frozen at `T = 1_000_000`. The watchdog
reads the clock at `T + 500 ms` (not expired, by the boundary policy), sleeps
for 10 ms, and its next reading, one nanosecond after the end of the sleep, is
`T + 510 ms + 1 ns`: `emergency_stop` is called at that reading, later than
`T + 500 ms + 10 ms`. -/
theorem stop_time_exceeds_one_poll_period :
    stop_time 1000000 [1000000 + 500000000, 1000000 + 500000000 + 10000000 + 1]
      = some 511000001 ∧
    ¬ (511000001 ≤ 1000000 + 500000000 + 10000000) := by
  decide

/-- C7 amended: the heartbeat store holds `T` at every load; the watchdog reads
the clock values `first :: rest`, which never decrease, start between `T` and
`T + 500 ms`, and are at most `g` apart from one iteration to the next. If some
reading lies beyond `T + 500 ms`, then `emergency_stop` is called, at a reading
`t` with `T + 500 ms < t ≤ T + 500 ms + g`. -/
theorem stop_time_within_gap (T g first : Nat) (rest : List Nat)
    (hT : T ≤ first) (hfirst : first ≤ T + 500000000)
    (hgap : List.Chain (fun a b => a ≤ b ∧ b ≤ a + g) first rest)
    (hrange : ∀ x ∈ first :: rest, x < U64_MOD)
    (hlate : ∃ x ∈ first :: rest, T + 500000000 < x) :
    ∃ t, stop_time T (first :: rest) = some t ∧ t ∈ first :: rest ∧
      T + 500000000 < t ∧ t ≤ T + 500000000 + g := by
  induction rest generalizing first with
  | nil =>
    obtain ⟨x, hx, hxl⟩ := hlate
    simp only [List.mem_singleton] at hx
    omega
  | cons b rest ih =>
    have hquiet : is_heartbeat_expired T first TIMEOUT_NS = false :=
      (not_expired_iff_of_le TIMEOUT_NS hT
        (hrange first (List.mem_cons_self _ _))).2 (by unfold TIMEOUT_NS; omega)
    rw [stop_time_cons_of_not_expired _ hquiet]
    obtain ⟨⟨hab, hbg⟩, hchain⟩ := List.chain_cons.1 hgap
    have hb : b < U64_MOD :=
      hrange b (List.mem_cons_of_mem _ (List.mem_cons_self _ _))
    by_cases hbl : b ≤ T + 500000000
    · have hlate' : ∃ x ∈ b :: rest, T + 500000000 < x := by
        obtain ⟨x, hx, hxl⟩ := hlate
        rcases List.mem_cons.1 hx with rfl | hx'
        · omega
        · exact ⟨x, hx', hxl⟩
      obtain ⟨t, ht, hmem, hlo, hhi⟩ :=
        ih b (by omega) hbl hchain
          (fun x hx => hrange x (List.mem_cons_of_mem _ hx)) hlate'
      exact ⟨t, ht, List.mem_cons_of_mem _ hmem, hlo, hhi⟩
    · have hexp : is_heartbeat_expired T b TIMEOUT_NS = true :=
        (expired_iff_of_le TIMEOUT_NS (by omega) hb).2 (by unfold TIMEOUT_NS; omega)
      exact ⟨b, stop_time_cons_of_expired _ hexp,
        List.mem_cons_of_mem _ (List.mem_cons_self _ _), by omega, by omega⟩

/-- Heartbeat frozen at `1_000_000`, clock read at `T + 495 ms`, `T + 504 ms`
and `T + 513 ms`, 9 ms apart, against a gap bound of 10 ms: the stop is at
`T + 504 ms`. -/
theorem stop_time_within_gap_witness :
    (1000000 : Nat) ≤ 496000000 ∧ (496000000 : Nat) ≤ 1000000 + 500000000 ∧
    List.Chain (fun a b => a ≤ b ∧ b ≤ a + 10000000) 496000000 [505000000, 514000000] ∧
    (∀ x ∈ [(496000000 : Nat), 505000000, 514000000], x < U64_MOD) ∧
    (∃ x ∈ [(496000000 : Nat), 505000000, 514000000], 1000000 + 500000000 < x) ∧
    ∃ t, stop_time 1000000 [496000000, 505000000, 514000000] = some t ∧
      t ∈ [(496000000 : Nat), 505000000, 514000000] ∧
      1000000 + 500000000 < t ∧ t ≤ 1000000 + 500000000 + 10000000 :=
  ⟨by decide, by decide, by simp, by decide, by decide,
    stop_time_within_gap 1000000 10000000 496000000 [505000000, 514000000]
      (by decide) (by decide) (by simp) (by decide) (by decide)⟩

/-! ## The interleaved process -/

theorem run_nil (s : Sys) : run s [] = s := rfl

theorem run_cons (s : Sys) (a : Action) (acts : List Action) :
    run s (a :: acts) = run (step s a) acts := rfl

theorem run_append (s : Sys) (acts1 acts2 : List Action) :
    run s (acts1 ++ acts2) = run (run s acts1) acts2 := by
  simp [run, List.foldl_append]

/-- After the abort no action changes the state. -/
theorem step_of_stopped {s : Sys} (h : s.status = WdState.Stopped) (a : Action) :
    step s a = s := by
  simp [step, h]

/-- After the abort no schedule changes the state. -/
theorem run_of_stopped {s : Sys} (h : s.status = WdState.Stopped) (acts : List Action) :
    run s acts = s := by
  induction acts with
  | nil => rfl
  | cons a acts ih => rw [run_cons, step_of_stopped h, ih]

theorem main_step_status (s : Sys) : (main_step s).status = s.status := by
  unfold main_step
  split <;> rfl

theorem ctrl_step_status (s : Sys) : (ctrl_step s).status = s.status := by
  unfold ctrl_step
  split
  · split
    · split <;> rfl
    all_goals rfl
  · rfl

/-- The watchdog step stops exactly when it evaluates the predicate to true. -/
theorem wd_step_status_stopped (s : Sys) (hs : s.status = WdState.Monitoring) :
    (wd_step s).status = WdState.Stopped ↔
      s.main = MainPc.joining ∧ ∃ last, s.wd = WdPc.have_last last ∧
        is_heartbeat_expired last (now_ns s) TIMEOUT_NS = true := by
  unfold wd_step
  cases hm : s.main <;> simp [hs]
  cases hw : s.wd <;> simp [hs]
  split <;> simp_all

/-- A stopping watchdog step has appended the effects of `emergency_stop`. -/
theorem wd_step_out_of_stopped (s : Sys) (hs : s.status = WdState.Monitoring)
    (h : (wd_step s).status = WdState.Stopped) :
    (wd_step s).out = s.out ++ emergency_stop "Heartbeat timeout > 500ms" := by
  obtain ⟨hm, last, hw, hexp⟩ := (wd_step_status_stopped s hs).1 h
  simp [wd_step, hm, hw, hexp]

/-- C5: `Stopped` is terminal and entered only through `emergency_stop` on an
observed expiry. From a `Stopped` state `t` no schedule of later actions (clock
ticks, producer steps including heartbeat stores, watchdog steps) changes
anything, so none leads back to `Monitoring`. From a `Monitoring` state `s` an
action leads to `Stopped` exactly when it is the watchdog step that evaluates
`is_heartbeat_expired` on its loaded `last` and the clock to true, and that
step performs the effects of `emergency_stop`. -/
theorem stopped_terminal_entered_on_expiry (s t : Sys) (a : Action) (acts : List Action)
    (ht : t.status = WdState.Stopped) (hs : s.status = WdState.Monitoring) :
    (run t acts = t ∧ (run t acts).status ≠ WdState.Monitoring) ∧
    ((step s a).status = WdState.Stopped ↔
      a = Action.wd_step ∧ s.main = MainPc.joining ∧
        ∃ last, s.wd = WdPc.have_last last ∧
          is_heartbeat_expired last (now_ns s) TIMEOUT_NS = true) ∧
    ((step s a).status = WdState.Stopped →
      (step s a).out = s.out ++ emergency_stop "Heartbeat timeout > 500ms") := by
  refine ⟨⟨run_of_stopped ht acts, ?_⟩, ?_, ?_⟩
  · rw [run_of_stopped ht acts, ht]
    decide
  · cases a with
    | tick d => simp [step, hs]
    | main_step => simp [step, hs, main_step_status]
    | ctrl_step => simp [step, hs, ctrl_step_status]
    | wd_step => simpa [step, hs] using wd_step_status_stopped s hs
  · cases a with
    | tick d => simp [step, hs]
    | main_step => simp [step, hs, main_step_status]
    | ctrl_step => simp [step, hs, ctrl_step_status]
    | wd_step => simpa [step, hs] using wd_step_out_of_stopped s hs

/-- Scenario C: expiry is detected 520 ms after the heartbeat `1_000_000`;
180 ms later the producer attempts its next store and the watchdog another
poll, and nothing changes. -/
theorem stopped_terminal_entered_on_expiry_witness :
    scenario_c_stopped.status = WdState.Stopped ∧
    scenario_c_before.status = WdState.Monitoring ∧
    ((run scenario_c_stopped scenario_c_later = scenario_c_stopped ∧
      (run scenario_c_stopped scenario_c_later).status ≠ WdState.Monitoring) ∧
    ((step scenario_c_before Action.wd_step).status = WdState.Stopped ↔
      Action.wd_step = Action.wd_step ∧ scenario_c_before.main = MainPc.joining ∧
        ∃ last, scenario_c_before.wd = WdPc.have_last last ∧
          is_heartbeat_expired last (now_ns scenario_c_before) TIMEOUT_NS = true) ∧
    ((step scenario_c_before Action.wd_step).status = WdState.Stopped →
      (step scenario_c_before Action.wd_step).out
        = scenario_c_before.out ++ emergency_stop "Heartbeat timeout > 500ms")) :=
  ⟨by decide, by decide,
    stopped_terminal_entered_on_expiry scenario_c_before scenario_c_stopped
      Action.wd_step scenario_c_later (by decide) (by decide)⟩

/-! ### The invariant -/

theorem now_ns_le_clock (s : Sys) : now_ns s ≤ s.clock := Nat.mod_le _ _

theorem now_ns_of_lt {s : Sys} (h : s.clock < U64_MOD) : now_ns s = s.clock :=
  Nat.mod_eq_of_lt h

theorem inv_boot (simulate_hang : Bool) (clock : Nat) : Inv (boot simulate_hang clock) := by
  simp [Inv, boot]

theorem inv_tick {s : Sys} (h : Inv s) (d : Nat) : Inv { s with clock := s.clock + d } := by
  obtain ⟨h1, h2, h3, h4, h5, h6⟩ := h
  refine ⟨?_, ?_, ?_, ?_, h5, ?_⟩
  · exact Nat.le_add_right_of_le h1
  · intro v hv; exact Nat.le_add_right_of_le (h2 v hv)
  · intro v hv; exact Nat.le_add_right_of_le (h3 v hv)
  · intro l hl; exact Nat.le_add_right_of_le (h4 l hl)
  · intro hr; exact h6 (by simp only at hr; omega)

theorem inv_main_step {s : Sys} (h : Inv s) : Inv (main_step s) := by
  obtain ⟨h1, h2, h3, h4, h5, h6⟩ := h
  unfold main_step
  split
  next hm =>
    refine ⟨h1, ?_, h3, h4, h5, h6⟩
    intro v hv
    simp only [MainPc.have_now.injEq] at hv
    exact hv ▸ now_ns_le_clock s
  next v hm =>
    refine ⟨h2 v hm, ?_, h3, h4, h5, h6⟩
    intro w hw
    simp at hw
  next hm => exact ⟨h1, h2, h3, h4, h5, h6⟩

theorem inv_ctrl_step {s : Sys} (h : Inv s) : Inv (ctrl_step s) := by
  obtain ⟨h1, h2, h3, h4, h5, h6⟩ := h
  unfold ctrl_step
  split
  next hm =>
    split
    next hc =>
      split
      · refine ⟨h1, h2, ?_, h4, h5, h6⟩
        intro v hv; simp at hv
      · refine ⟨h1, h2, ?_, h4, h5, h6⟩
        intro v hv; simp at hv
    next hc => exact ⟨h1, h2, h3, h4, h5, h6⟩
    next hc =>
      refine ⟨h1, h2, ?_, h4, h5, h6⟩
      intro v hv
      simp only [CtrlPc.have_now.injEq] at hv
      exact hv ▸ now_ns_le_clock s
    next v hc =>
      refine ⟨h3 v hc, h2, ?_, h4, h5, h6⟩
      intro w hw; simp at hw
    next hc =>
      refine ⟨h1, h2, ?_, h4, h5, h6⟩
      intro v hv; simp at hv
  next => exact ⟨h1, h2, h3, h4, h5, h6⟩

theorem inv_wd_step {s : Sys} (h : Inv s) : Inv (wd_step s) := by
  obtain ⟨h1, h2, h3, h4, h5, h6⟩ := h
  unfold wd_step
  split
  next hm =>
    split
    next hw =>
      refine ⟨h1, h2, h3, ?_, h5, h6⟩
      intro l hl
      simp only [WdPc.have_last.injEq] at hl
      exact hl ▸ h1
    next last hw =>
      have hlast := h4 last hw
      have hc5 : ∀ c ∈ s.checks ++
          [Check.mk last (now_ns s) (is_heartbeat_expired last (now_ns s) TIMEOUT_NS)],
          c.result = is_heartbeat_expired c.last c.now TIMEOUT_NS := by
        intro c hc
        rcases List.mem_append.1 hc with hc | hc
        · exact h5 c hc
        · simp only [List.mem_singleton] at hc
          subst hc; rfl
      have hc6 : s.clock < U64_MOD → ∀ c ∈ s.checks ++
          [Check.mk last (now_ns s) (is_heartbeat_expired last (now_ns s) TIMEOUT_NS)],
          c.last ≤ c.now ∧ c.now < U64_MOD := by
        intro hr c hc
        rcases List.mem_append.1 hc with hc | hc
        · exact h6 hr c hc
        · simp only [List.mem_singleton] at hc
          subst hc
          simp only [now_ns_of_lt hr]
          exact ⟨hlast, hr⟩
      simp only
      split
      · exact ⟨h1, h2, h3, fun l hl => h4 l hl, hc5, hc6⟩
      · refine ⟨h1, h2, h3, ?_, hc5, hc6⟩
        intro l hl; simp at hl
    next hw =>
      refine ⟨h1, h2, h3, ?_, h5, h6⟩
      intro l hl; simp at hl
  next => exact ⟨h1, h2, h3, h4, h5, h6⟩

theorem inv_step {s : Sys} (h : Inv s) (a : Action) : Inv (step s a) := by
  unfold step
  split
  · exact h
  · cases a with
    | tick d => exact inv_tick h d
    | main_step => exact inv_main_step h
    | ctrl_step => exact inv_ctrl_step h
    | wd_step => exact inv_wd_step h

theorem inv_run {s : Sys} (h : Inv s) (acts : List Action) : Inv (run s acts) := by
  induction acts generalizing s with
  | nil => exact h
  | cons a acts ih => exact ih (inv_step h a)

/-- C10: no underflow in the running system. In every run of the process from
its start, over every interleaving of `main`, `control_thread`,
`watchdog_thread` and clock ticks, as long as the steady clock stays within the
64-bit range, every evaluation of `is_heartbeat_expired last now TIMEOUT_NS` by
the watchdog has `last ≤ now`: the unsigned subtraction does not wrap and the
decision is the exact comparison `now - last > 500_000_000`. -/
theorem watchdog_checks_never_underflow (simulate_hang : Bool) (clock0 : Nat)
    (acts : List Action)
    (hrange : (run (boot simulate_hang clock0) acts).clock < U64_MOD) :
    ∀ c ∈ (run (boot simulate_hang clock0) acts).checks,
      c.result = is_heartbeat_expired c.last c.now TIMEOUT_NS ∧
      c.last ≤ c.now ∧
      sub_u64 c.now c.last = c.now - c.last ∧
      c.result = decide (c.now - c.last > 500000000) := by
  intro c hc
  obtain ⟨_, _, _, _, h5, h6⟩ := inv_run (inv_boot simulate_hang clock0) acts
  obtain ⟨hle, hlt⟩ := h6 hrange c hc
  have hres := h5 c hc
  refine ⟨hres, hle, sub_u64_of_le hle hlt, ?_⟩
  rw [hres, is_heartbeat_expired, sub_u64_of_le hle hlt]
  rfl

/-! ### The producer and the store -/

theorem step_monitoring_tick {s : Sys} (h : s.status = WdState.Monitoring) (d : Nat) :
    step s (Action.tick d) = { s with clock := s.clock + d } := by
  simp [step, h]

theorem step_monitoring_main {s : Sys} (h : s.status = WdState.Monitoring) :
    step s Action.main_step = main_step s := by
  simp [step, h]

theorem step_monitoring_ctrl {s : Sys} (h : s.status = WdState.Monitoring) :
    step s Action.ctrl_step = ctrl_step s := by
  simp [step, h]

theorem step_monitoring_wd {s : Sys} (h : s.status = WdState.Monitoring) :
    step s Action.wd_step = wd_step s := by
  simp [step, h]

/-- The step of `main` touches neither the flag nor the producer. -/
theorem main_step_frame (s : Sys) :
    (main_step s).simulate_hang = s.simulate_hang ∧ (main_step s).ctrl = s.ctrl ∧
    (s.main = MainPc.joining → main_step s = s) := by
  unfold main_step
  split
  next hm => exact ⟨rfl, rfl, fun hj => by simp [hm] at hj⟩
  next v hm => exact ⟨rfl, rfl, fun hj => by simp [hm] at hj⟩
  next hm => exact ⟨rfl, rfl, fun _ => rfl⟩

/-- The step of the watchdog touches neither the flag, nor the producer, nor
`main`, nor the store. -/
theorem wd_step_frame (s : Sys) :
    (wd_step s).simulate_hang = s.simulate_hang ∧ (wd_step s).ctrl = s.ctrl ∧
    (wd_step s).main = s.main ∧ (wd_step s).last_heartbeat_ns = s.last_heartbeat_ns := by
  unfold wd_step
  split
  · split
    · exact ⟨rfl, rfl, rfl, rfl⟩
    · simp only
      split <;> exact ⟨rfl, rfl, rfl, rfl⟩
    · exact ⟨rfl, rfl, rfl, rfl⟩
  · exact ⟨rfl, rfl, rfl, rfl⟩

/-- The step of the producer changes neither the flag nor `main`. -/
theorem ctrl_step_frame (s : Sys) :
    (ctrl_step s).simulate_hang = s.simulate_hang ∧ (ctrl_step s).main = s.main := by
  unfold ctrl_step
  split
  · split
    · split <;> exact ⟨rfl, rfl⟩
    all_goals exact ⟨rfl, rfl⟩
  · exact ⟨rfl, rfl⟩

/-- A producer started with `simulate_hang = true` stays at its entry or in the
empty loop and does not write the store. -/
theorem ctrl_step_hang (s : Sys) (hh : s.simulate_hang = true)
    (hc : s.ctrl = CtrlPc.entry ∨ s.ctrl = CtrlPc.hang) :
    ((ctrl_step s).ctrl = CtrlPc.entry ∨ (ctrl_step s).ctrl = CtrlPc.hang) ∧
    (ctrl_step s).last_heartbeat_ns = s.last_heartbeat_ns := by
  unfold ctrl_step
  split
  · rcases hc with hc | hc <;> simp [hc, hh]
  · exact ⟨hc, rfl⟩

/-- A producer started with `simulate_hang = false` does not enter the empty loop. -/
theorem ctrl_step_no_hang (s : Sys) (hh : s.simulate_hang = false)
    (hc : s.ctrl ≠ CtrlPc.hang) : (ctrl_step s).ctrl ≠ CtrlPc.hang := by
  unfold ctrl_step
  split
  · split
    · simp [hh]
    · exact hc
    all_goals simp
  · exact hc

/-- With `simulate_hang = true` the producer stays at its entry or in the empty
loop, and once `main` has done its store nothing writes the heartbeat. -/
theorem hang_step (s : Sys) (a : Action) (hh : s.simulate_hang = true)
    (hc : s.ctrl = CtrlPc.entry ∨ s.ctrl = CtrlPc.hang) :
    (step s a).simulate_hang = true ∧
    ((step s a).ctrl = CtrlPc.entry ∨ (step s a).ctrl = CtrlPc.hang) ∧
    (s.main = MainPc.joining →
      (step s a).main = MainPc.joining ∧
      (step s a).last_heartbeat_ns = s.last_heartbeat_ns) := by
  cases hst : s.status with
  | Stopped =>
    rw [step_of_stopped hst]
    exact ⟨hh, hc, fun hm => ⟨hm, rfl⟩⟩
  | Monitoring =>
    cases a with
    | tick d =>
      rw [step_monitoring_tick hst]
      exact ⟨hh, hc, fun hm => ⟨hm, rfl⟩⟩
    | main_step =>
      rw [step_monitoring_main hst]
      obtain ⟨h1, h2, h3⟩ := main_step_frame s
      refine ⟨h1 ▸ hh, h2 ▸ hc, fun hm => ?_⟩
      rw [h3 hm]
      exact ⟨hm, rfl⟩
    | ctrl_step =>
      rw [step_monitoring_ctrl hst]
      obtain ⟨h1, h2⟩ := ctrl_step_frame s
      obtain ⟨h3, h4⟩ := ctrl_step_hang s hh hc
      exact ⟨h1 ▸ hh, h3, fun hm => ⟨h2 ▸ hm, h4⟩⟩
    | wd_step =>
      rw [step_monitoring_wd hst]
      obtain ⟨h1, h2, h3, h4⟩ := wd_step_frame s
      exact ⟨h1 ▸ hh, h2 ▸ hc, fun hm => ⟨h3 ▸ hm, h4⟩⟩

theorem hang_run (s : Sys) (acts : List Action) (hh : s.simulate_hang = true)
    (hc : s.ctrl = CtrlPc.entry ∨ s.ctrl = CtrlPc.hang) :
    (run s acts).simulate_hang = true ∧
    ((run s acts).ctrl = CtrlPc.entry ∨ (run s acts).ctrl = CtrlPc.hang) ∧
    (s.main = MainPc.joining →
      (run s acts).last_heartbeat_ns = s.last_heartbeat_ns) := by
  induction acts generalizing s with
  | nil => exact ⟨hh, hc, fun _ => rfl⟩
  | cons a acts ih =>
    obtain ⟨h1, h2, h3⟩ := hang_step s a hh hc
    obtain ⟨k1, k2, k3⟩ := ih (step s a) h1 h2
    refine ⟨k1, k2, fun hm => ?_⟩
    rw [run_cons, k3 (h3 hm).1, (h3 hm).2]

/-- With `simulate_hang = false` the producer never enters the empty loop. -/
theorem no_hang_step (s : Sys) (a : Action) (hh : s.simulate_hang = false)
    (hc : s.ctrl ≠ CtrlPc.hang) :
    (step s a).simulate_hang = false ∧ (step s a).ctrl ≠ CtrlPc.hang := by
  cases hst : s.status with
  | Stopped =>
    rw [step_of_stopped hst]
    exact ⟨hh, hc⟩
  | Monitoring =>
    cases a with
    | tick d =>
      rw [step_monitoring_tick hst]
      exact ⟨hh, hc⟩
    | main_step =>
      rw [step_monitoring_main hst]
      obtain ⟨h1, h2, _⟩ := main_step_frame s
      exact ⟨h1 ▸ hh, h2 ▸ hc⟩
    | ctrl_step =>
      rw [step_monitoring_ctrl hst]
      exact ⟨(ctrl_step_frame s).1 ▸ hh, ctrl_step_no_hang s hh hc⟩
    | wd_step =>
      rw [step_monitoring_wd hst]
      obtain ⟨h1, h2, _, _⟩ := wd_step_frame s
      exact ⟨h1 ▸ hh, h2 ▸ hc⟩

theorem no_hang_run (s : Sys) (acts : List Action) (hh : s.simulate_hang = false)
    (hc : s.ctrl ≠ CtrlPc.hang) :
    (run s acts).simulate_hang = false ∧ (run s acts).ctrl ≠ CtrlPc.hang := by
  induction acts generalizing s with
  | nil => exact ⟨hh, hc⟩
  | cons a acts ih =>
    obtain ⟨h1, h2⟩ := no_hang_step s a hh hc
    exact ih (step s a) h1 h2

/-- C8: effect of `control_thread` on the heartbeat store.
With `simulate_hang = true`: once `main` has done its store (after `acts1`), the
store holds that value in every state any further schedule `acts2` reaches.
With `simulate_hang = false`: the producer never enters the empty loop, and from
the top of its loop (state `s`) its next two steps store the clock reading
`now_ns()` and go to sleep, and the step after that is back at the top of the
loop. The producer never reads the store: changing the stored value in a state
`t` changes nothing in what its step does. -/
theorem control_thread_store_frame (clock0 clock1 v : Nat)
    (acts1 acts2 acts : List Action) (s t : Sys)
    (hinit : (run (boot true clock0) acts1).main = MainPc.joining)
    (hmain : s.main = MainPc.joining) (hstatus : s.status = WdState.Monitoring)
    (hctrl : s.ctrl = CtrlPc.loop_top) :
    (run (boot true clock0) (acts1 ++ acts2)).last_heartbeat_ns
      = (run (boot true clock0) acts1).last_heartbeat_ns ∧
    (run (boot false clock1) acts).ctrl ≠ CtrlPc.hang ∧
    (run s [Action.ctrl_step, Action.ctrl_step]).last_heartbeat_ns = now_ns s ∧
    (run s [Action.ctrl_step, Action.ctrl_step]).ctrl = CtrlPc.sleeping ∧
    (run s [Action.ctrl_step, Action.ctrl_step, Action.ctrl_step]).ctrl
      = CtrlPc.loop_top ∧
    (ctrl_step { t with last_heartbeat_ns := v }
        = { ctrl_step t with last_heartbeat_ns := v } ∨
      ctrl_step { t with last_heartbeat_ns := v } = ctrl_step t) := by
  refine ⟨?_, ?_, ?_, ?_, ?_, ?_⟩
  · rw [run_append]
    obtain ⟨h1, h2, _⟩ := hang_run (boot true clock0) acts1 rfl (Or.inl rfl)
    exact (hang_run _ acts2 h1 h2).2.2 hinit
  · exact (no_hang_run (boot false clock1) acts rfl (by simp [boot])).2
  · simp [run, step, ctrl_step, hmain, hstatus, hctrl]
  · simp [run, step, ctrl_step, hmain, hstatus, hctrl]
  · simp [run, step, ctrl_step, hmain, hstatus, hctrl]
  · obtain ⟨clk, hb, sh, m, c, w, st, o, ch⟩ := t
    cases m <;> cases c <;> cases sh <;> simp [ctrl_step, now_ns]

/-- A hung producer started at clock `1_000_000` keeps the store at the value
`main` wrote; a live producer 100 ms after start stores `101_000_000`. -/
theorem control_thread_store_frame_witness :
    (run (boot true 1000000) startup).main = MainPc.joining ∧
    producer_at_loop_top.main = MainPc.joining ∧
    producer_at_loop_top.status = WdState.Monitoring ∧
    producer_at_loop_top.ctrl = CtrlPc.loop_top ∧
    ((run (boot true 1000000) (startup ++ hang_schedule)).last_heartbeat_ns
      = (run (boot true 1000000) startup).last_heartbeat_ns ∧
    (run (boot false 1000000) sample_schedule).ctrl ≠ CtrlPc.hang ∧
    (run producer_at_loop_top [Action.ctrl_step, Action.ctrl_step]).last_heartbeat_ns
      = now_ns producer_at_loop_top ∧
    (run producer_at_loop_top [Action.ctrl_step, Action.ctrl_step]).ctrl
      = CtrlPc.sleeping ∧
    (run producer_at_loop_top
        [Action.ctrl_step, Action.ctrl_step, Action.ctrl_step]).ctrl
      = CtrlPc.loop_top ∧
    (ctrl_step { producer_before_store with last_heartbeat_ns := 7 }
        = { ctrl_step producer_before_store with last_heartbeat_ns := 7 } ∨
      ctrl_step { producer_before_store with last_heartbeat_ns := 7 }
        = ctrl_step producer_before_store)) :=
  ⟨by decide, by decide, by decide, by decide,
    control_thread_store_frame 1000000 1000000 7 startup hang_schedule sample_schedule
      producer_at_loop_top producer_before_store (by decide) (by decide) (by decide)
      (by decide)⟩

/-- The sample run stays far below `2^64`; its two checks, at ages 100 ms and
700 ms, do not wrap. -/
theorem watchdog_checks_never_underflow_witness :
    (run (boot false 1000000) sample_schedule).clock < U64_MOD ∧
    ∀ c ∈ (run (boot false 1000000) sample_schedule).checks,
      c.result = is_heartbeat_expired c.last c.now TIMEOUT_NS ∧
      c.last ≤ c.now ∧
      sub_u64 c.now c.last = c.now - c.last ∧
      c.result = decide (c.now - c.last > 500000000) :=
  ⟨by decide, watchdog_checks_never_underflow false 1000000 sample_schedule (by decide)⟩

end SafetyWatchdog
